import Mathlib

/-!
Verification of the GitHub-Analyser request pipeline (the `/api/analyze`
handler with rate limiting and validation, the GitHub data aggregator, and
the OpenAI scoring client) against its natural-language specification.

The JavaScript sources are embedded shallowly:

* query-string values are `Option String` (`none` = parameter absent);
  JavaScript truthiness of such a value is `truthy` below;
* JavaScript numbers are modelled as `ℚ` where the code computes with them
  (statistics, ratios, thresholds); timestamps and counters that only ever
  hold integers are `ℕ`/`ℤ`;
* fallible code (`throw`/`catch`) becomes `Except AppError`;
* the in-memory rate-limit `Map` becomes a function `String → Option RateRecord`
  and mutation becomes explicit state passing;
* the network calls performed by `analyzeCandidate` are abstracted as an
  oracle argument, so "no upstream call is made" is expressed as
  noninterference of the response in that oracle.
-/

/-- JavaScript truthiness of a possibly-absent query-string value:
`undefined` and the empty string are falsy, every other string truthy. -/
def truthy (v : Option String) : Bool :=
  match v with
  | none => false
  | some s => s ≠ ""

/-- `String.prototype.trim`: strip leading and trailing whitespace, modelled
over the character list. -/
def jsTrim (s : String) : String :=
  String.mk (((s.data.dropWhile Char.isWhitespace).reverse.dropWhile
    Char.isWhitespace).reverse)

/-- `String.prototype.toLowerCase` (ASCII, which is all the code compares). -/
def jsToLower (s : String) : String :=
  String.mk (s.data.map Char.toLower)

/-- Splitting a character list at a separator character; the result always
has one more segment than there are separators, as in JavaScript. -/
def splitCharAux (sep : Char) : List Char → List (List Char)
  | [] => [[]]
  | c :: cs =>
      match splitCharAux sep cs with
      | [] => [[]]
      | h :: t => if c = sep then [] :: h :: t else (c :: h) :: t

/-- `String.prototype.split` with a one-character separator. -/
def jsSplit (s : String) (sep : Char) : List String :=
  (splitCharAux sep s.data).map String.mk

/-- Errors thrown by the pipeline.  Modelled from the spec:
`src/common/error.js` is not under `src/`; the handler's catch block
dispatches on `instanceof MissingParamError` and `instanceof CustomError`
separately, so the two are modelled as distinct error classes
(`missingParam` and `custom`); `unexpected` stands for any other thrown
value, matching the catch block's final branch. -/
inductive AppError where
  | missingParam (params : List String)
  | custom (message : String) (errType : String)
  | unexpected (message : String)
deriving DecidableEq

/-- Modelled from the spec: the message of `MissingParamError`
(`src/common/error.js`, not under `src/`) names the missing fields. -/
def missingParamMessage (params : List String) : String :=
  "Missing params: " ++ String.intercalate ", " params

/- ### Rate limiter (`checkRateLimit`, src/unnamed/part_001 lines 165-206) -/

/-- One entry of the in-memory `rateLimitMap`. -/
structure RateRecord where
  count : ℕ
  resetAt : ℕ
deriving DecidableEq

/-- Result record returned by `checkRateLimit`.  `remaining` is `ℤ` because
the source computes `maxRequests - 1` with JavaScript numbers. -/
structure RateResult where
  allowed : Bool
  remaining : ℤ
  resetAt : ℕ
deriving DecidableEq

/-- The process-wide `rateLimitMap`, as a function from identifier to record. -/
abbrev RateMap := String → Option RateRecord

/-- `checkRateLimit(identifier, maxRequests, windowMs)` from
src/unnamed/part_001 lines 165-206, with the map and `Date.now()` passed
explicitly and the updated map returned. -/
def checkRateLimit (m : RateMap) (identifier : String) (now maxRequests windowMs : ℕ) :
    RateResult × RateMap :=
  match m identifier with
  | none =>
      (⟨true, (maxRequests : ℤ) - 1, now + windowMs⟩,
       fun k => if k = identifier then some ⟨1, now + windowMs⟩ else m k)
  | some record =>
      if record.resetAt < now then
        -- window expired: count = 1, resetAt = now + windowMs
        (⟨true, (maxRequests : ℤ) - 1, now + windowMs⟩,
         fun k => if k = identifier then some ⟨1, now + windowMs⟩ else m k)
      else if maxRequests ≤ record.count then
        -- limit exceeded: deny without incrementing
        (⟨false, 0, record.resetAt⟩, m)
      else
        (⟨true, (maxRequests : ℤ) - (record.count + 1), record.resetAt⟩,
         fun k => if k = identifier then some ⟨record.count + 1, record.resetAt⟩ else m k)

/-- State of the rate-limit map after the first `n` of a sequence of calls
for one identifier `"ip"`, the `i`-th call issued at time `t i`, all with
limit `K` and window `W`, starting from the empty map. -/
def rlStateAfter (t : ℕ → ℕ) (K W : ℕ) : ℕ → RateMap
  | 0 => fun _ => none
  | n + 1 => (checkRateLimit (rlStateAfter t K W n) "ip" (t n) K W).2

/-- Result of the `n`-th call (0-based) of the sequence described at
`rlStateAfter`. -/
def rlResult (t : ℕ → ℕ) (K W n : ℕ) : RateResult :=
  (checkRateLimit (rlStateAfter t K W n) "ip" (t n) K W).1

/-- Number of the first `N` calls of the sequence that were admitted. -/
def rlAllowedCount (t : ℕ → ℕ) (K W N : ℕ) : ℕ :=
  (List.range N).countP (fun n => (rlResult t K W n).allowed)

theorem rlStateAfter_key (t : ℕ → ℕ) (K W : ℕ) (hK : 1 ≤ K) :
    ∀ n, 1 ≤ n → (∀ i, i < n → t i ≤ t 0 + W) →
      rlStateAfter t K W n "ip" = some ⟨min n K, t 0 + W⟩ := by
  intro n
  induction n with
  | zero => omega
  | succ m ih =>
    intro _ hwin
    rcases Nat.eq_zero_or_pos m with hm | hm
    · subst hm
      simp [rlStateAfter, checkRateLimit, Nat.min_eq_left hK]
    · have hst := ih hm (fun i hi => hwin i (by omega))
      have htm : t m ≤ t 0 + W := hwin m (by omega)
      by_cases hcap : K ≤ m
      · have : min m K = K := by omega
        simp only [rlStateAfter, checkRateLimit, hst, this]
        rw [if_neg (by omega), if_pos (le_refl K)]
        have : min (m + 1) K = K := by omega
        simp [hst, this]
        omega
      · have h1 : min m K = m := by omega
        simp only [rlStateAfter, checkRateLimit, hst, h1]
        rw [if_neg (by omega), if_neg (by omega)]
        have : min (m + 1) K = m + 1 := by omega
        simp [this]

theorem rlResult_allowed (t : ℕ → ℕ) (K W : ℕ) (hK : 1 ≤ K) :
    ∀ n, (∀ i, i ≤ n → t i ≤ t 0 + W) →
      (rlResult t K W n).allowed = decide (n < K) := by
  intro n hwin
  rcases Nat.eq_zero_or_pos n with hn | hn
  · subst hn
    simp [rlResult, rlStateAfter, checkRateLimit, hK]
    omega
  · have hst := rlStateAfter_key t K W hK n hn (fun i hi => hwin i (by omega))
    have htn : t n ≤ t 0 + W := hwin n (le_refl n)
    by_cases hcap : K ≤ n
    · have : min n K = K := by omega
      simp only [rlResult, checkRateLimit, hst, this]
      rw [if_neg (by omega), if_pos (le_refl K)]
      simp
      omega
    · have : min n K = n := by omega
      simp only [rlResult, checkRateLimit, hst, this]
      rw [if_neg (by omega), if_neg (by omega)]
      simp
      omega

theorem rlAllowedCount_eq (t : ℕ → ℕ) (K W : ℕ) (hK : 1 ≤ K) :
    ∀ N, (∀ i, i < N → t i ≤ t 0 + W) → rlAllowedCount t K W N = min N K := by
  intro N
  induction N with
  | zero => intro _; simp [rlAllowedCount]
  | succ m ih =>
    intro hwin
    have hres := rlResult_allowed t K W hK m (fun i hi => hwin i (by omega))
    have : rlAllowedCount t K W (m + 1) =
        rlAllowedCount t K W m + (if m < K then 1 else 0) := by
      simp only [rlAllowedCount, List.range_succ, List.countP_append,
        List.countP_cons, List.countP_nil, hres]
      by_cases h : m < K <;> simp [h]
    rw [this, ih (fun i hi => hwin i (by omega))]
    by_cases h : m < K <;> simp [h] <;> omega

/-- Claim C2: with `maxRequests = 10` and `windowMs = 60000`, starting from an
empty map, for call times `t 0, …, t 10` all within the window opened by the
first call, the first 10 calls are allowed, the 11th is denied with
`remaining = 0` and leaves the map unchanged, and any later call issued
strictly after the stored `resetAt` is allowed with the count reset to 1 and a
fresh `resetAt` of `now + windowMs`. -/
theorem checkRateLimit_window_behavior (t : ℕ → ℕ)
    (hwin : ∀ i, i < 11 → t i ≤ t 0 + 60000) :
    (∀ i, i < 10 → (rlResult t 10 60000 i).allowed = true) ∧
    (rlResult t 10 60000 10).allowed = false ∧
    (rlResult t 10 60000 10).remaining = 0 ∧
    rlStateAfter t 10 60000 11 = rlStateAfter t 10 60000 10 ∧
    (∀ u, t 0 + 60000 < u →
      (checkRateLimit (rlStateAfter t 10 60000 11) "ip" u 10 60000).1.allowed = true ∧
      (checkRateLimit (rlStateAfter t 10 60000 11) "ip" u 10 60000).2 "ip" =
        some ⟨1, u + 60000⟩ ∧
      (checkRateLimit (rlStateAfter t 10 60000 11) "ip" u 10 60000).1.resetAt =
        u + 60000) := by
  have hK : 1 ≤ 10 := by omega
  have hst10 := rlStateAfter_key t 10 60000 hK 10 (by omega)
      (fun i hi => hwin i (by omega))
  have ht10 : t 10 ≤ t 0 + 60000 := hwin 10 (by omega)
  have hmin : min 10 10 = 10 := by omega
  rw [hmin] at hst10
  have hdenied : checkRateLimit (rlStateAfter t 10 60000 10) "ip" (t 10) 10 60000 =
      (⟨false, 0, t 0 + 60000⟩, rlStateAfter t 10 60000 10) := by
    simp only [checkRateLimit, hst10]
    rw [if_neg (by omega), if_pos (by omega)]
  have hstate11 : rlStateAfter t 10 60000 11 = rlStateAfter t 10 60000 10 := by
    show (checkRateLimit (rlStateAfter t 10 60000 10) "ip" (t 10) 10 60000).2 = _
    rw [hdenied]
  refine ⟨?_, ?_, ?_, hstate11, ?_⟩
  · intro i hi
    have := rlResult_allowed t 10 60000 hK i (fun j hj => hwin j (by omega))
    rw [this]
    simp [hi]
  · show (checkRateLimit (rlStateAfter t 10 60000 10) "ip" (t 10) 10 60000).1.allowed = false
    rw [hdenied]
  · show (checkRateLimit (rlStateAfter t 10 60000 10) "ip" (t 10) 10 60000).1.remaining = 0
    rw [hdenied]
  · intro u hu
    rw [hstate11]
    simp only [checkRateLimit, hst10]
    rw [if_pos (by omega)]
    refine ⟨rfl, ?_, rfl⟩
    simp

theorem checkRateLimit_window_behavior_witness :
    (∀ i, i < 11 → (fun _ => 0) i ≤ (fun _ => 0) 0 + 60000) ∧
    (rlResult (fun _ => 0) 10 60000 10).allowed = false ∧
    (checkRateLimit (rlStateAfter (fun _ => 0) 10 60000 11) "ip" 60001 10 60000).1.allowed
      = true := by
  have h := checkRateLimit_window_behavior (fun _ => 0) (fun _ _ => Nat.zero_le _)
  exact ⟨fun _ _ => Nat.zero_le _, h.2.1, (h.2.2.2.2 60001 (by simp)).1⟩

/-- Claim C3 (counterexample): with `maxRequests = 0` the limiter still admits
the first call for a fresh identifier, so the number of admitted calls is 1,
not `min N K = min 1 0 = 0`: the claim "exactly min(N,K) are admitted" fails
for `K = 0`. -/
theorem checkRateLimit_admits_with_zero_limit :
    rlAllowedCount (fun _ => 0) 0 60000 1 = 1 ∧ min 1 0 = 0 := by
  constructor
  · rfl
  · rfl

/-- Claim C3 (amended): for `K ≥ 1`, any `N` calls for the same identifier
within one window — the limiter runs atomically per call, so any concurrent
schedule is some sequential order of call times — admit exactly `min N K`
and deny the rest. -/
theorem checkRateLimit_admits_min (K W : ℕ) (t : ℕ → ℕ) (N : ℕ) (hK : 1 ≤ K)
    (hwin : ∀ i, i < N → t i ≤ t 0 + W) :
    rlAllowedCount t K W N = min N K :=
  rlAllowedCount_eq t K W hK N hwin

theorem checkRateLimit_admits_min_witness :
    1 ≤ 1 ∧ rlAllowedCount (fun _ => 0) 1 60000 2 = min 2 1 :=
  ⟨le_refl 1,
   checkRateLimit_admits_min 1 60000 (fun _ => 0) 2 (le_refl 1) (fun _ _ => Nat.zero_le _)⟩

/- ### Input validators (src/unnamed/part_001 lines 22-149 and 231-286) -/

/-- `validateUsername` helper: one character of the `github-username-regex`
pattern, `/^[a-z\d](?:[a-z\d]|-(?=[a-z\d])){0,38}$/i` — ASCII letters and
digits, with every hyphen followed by a letter or digit. -/
def githubUsernameTail : List Char → Bool
  | [] => true
  | '-' :: rest =>
      match rest with
      | [] => false
      | c :: _ => c.isAlphanum && githubUsernameTail rest
  | c :: rest => c.isAlphanum && githubUsernameTail rest

/-- The `github-username-regex` npm package test used by `validateUsername`:
first character alphanumeric, no trailing hyphen, no two consecutive
hyphens, at most 39 characters. -/
def githubUsernameTest (s : String) : Bool :=
  match s.toList with
  | [] => false
  | c :: rest => c.isAlphanum && githubUsernameTail rest && s.length ≤ 39

/-- `validateUsername` (src/unnamed/part_001 lines 22-54). -/
def validateUsername (username : Option String) : Except AppError String :=
  if !truthy username then
    .error (.custom "Username is required and must be a string" "MISSING_PARAMETER")
  else
    let trimmedUsername := jsTrim (username.getD "")
    if trimmedUsername.length = 0 then
      .error (.custom "Username cannot be empty" "MISSING_PARAMETER")
    else if 39 < trimmedUsername.length then
      .error (.custom "Username must be 39 characters or less" "MISSING_PARAMETER")
    else if !githubUsernameTest trimmedUsername then
      .error (.custom "Invalid GitHub username format" "MISSING_PARAMETER")
    else
      .ok trimmedUsername

/-- `validateStringInput` (src/unnamed/part_001 lines 65-90). -/
def validateStringInput (value : Option String) (fieldName : String) (maxLength : ℕ) :
    Except AppError String :=
  if !truthy value then
    .error (.custom (fieldName ++ " is required and must be a string") "MISSING_PARAMETER")
  else
    let trimmed := jsTrim (value.getD "")
    if trimmed.length = 0 then
      .error (.custom (fieldName ++ " cannot be empty") "MISSING_PARAMETER")
    else if maxLength < trimmed.length then
      .error (.custom (fieldName ++ " must be " ++ toString maxLength ++ " characters or less")
        "MISSING_PARAMETER")
    else
      .ok trimmed

/-- `validateSkills` (src/unnamed/part_001 lines 101-149): split on comma,
trim entries, drop empty ones, then bound count and entry length. -/
def validateSkills (skillsString : Option String) (fieldName : String) (required : Bool) :
    Except AppError (List String) :=
  if !truthy skillsString then
    if required then
      .error (.custom (fieldName ++ " is required") "MISSING_PARAMETER")
    else
      .ok []
  else
    let skills := ((jsSplit (skillsString.getD "") ',').map jsTrim).filter (· ≠ "")
    if required && skills.length = 0 then
      .error (.custom (fieldName ++ " must contain at least one skill") "MISSING_PARAMETER")
    else if 50 < skills.length then
      .error (.custom (fieldName ++ " cannot contain more than 50 skills") "MISSING_PARAMETER")
    else if skills.any (fun skill => 50 < skill.length) then
      .error (.custom ("Each skill in " ++ fieldName ++ " must be 50 characters or less")
        "MISSING_PARAMETER")
    else
      .ok skills

/-- The `JobRole` value object (src/unnamed/part_007). -/
structure JobRole where
  title : String
  required_skills : List String
  nice_to_have_skills : List String
  seniority : String
  focus : String
deriving DecidableEq

/-- Query parameters of a request to `/api/analyze`, as read by the handler
in src/unnamed/part_001 (all of them, including `openai_api_key`, which that
handler never reads but the legacy variant `api/analyze.js` does). -/
structure Query where
  username : Option String
  job_title : Option String
  required_skills : Option String
  nice_to_have_skills : Option String
  seniority : Option String
  focus : Option String
  include_all_commits : Option String
  cache_seconds : Option String
  openai_model : Option String
  openai_api_key : Option String
deriving DecidableEq

/-- Valid seniority values (src/unnamed/part_001 line 260). -/
def validSeniority : List String := ["junior", "mid", "senior"]

/-- Valid focus values (src/unnamed/part_001 line 270). -/
def validFocus : List String := ["frontend", "backend", "fullstack", "data", "infra"]

/-- `parseJobRole` (src/unnamed/part_001 lines 231-286): group check for the
four required fields, then field-level validation. -/
def parseJobRole (q : Query) : Except AppError JobRole :=
  if !(truthy q.job_title && truthy q.required_skills && truthy q.seniority && truthy q.focus) then
    .error (.missingParam ["job_title", "required_skills", "seniority", "focus"])
  else do
    let validatedJobTitle ← validateStringInput q.job_title "job_title" 100
    let validatedRequiredSkills ← validateSkills q.required_skills "required_skills" true
    let validatedNiceToHaveSkills ← validateSkills q.nice_to_have_skills "nice_to_have_skills" false
    let lowerSeniority := jsToLower (q.seniority.getD "")
    if !validSeniority.contains lowerSeniority then
      .error (.custom ("Invalid seniority. Must be one of: " ++ String.intercalate ", " validSeniority)
        "MISSING_PARAMETER")
    else
      let lowerFocus := jsToLower (q.focus.getD "")
      if !validFocus.contains lowerFocus then
        .error (.custom ("Invalid focus. Must be one of: " ++ String.intercalate ", " validFocus)
          "MISSING_PARAMETER")
      else
        .ok ⟨validatedJobTitle, validatedRequiredSkills, validatedNiceToHaveSkills,
          lowerSeniority, lowerFocus⟩

/- ### The `/api/analyze` handler (src/unnamed/part_001 lines 289-390) -/

/-- The request fields the handler reads: the query string and the headers
and socket address that `getClientIdentifier` consults. -/
structure Req where
  query : Query
  xForwardedFor : Option String
  xRealIp : Option String
  remoteAddress : Option String
deriving DecidableEq

/-- `getClientIdentifier` (src/unnamed/part_001 lines 214-223): first token
of `x-forwarded-for`, else `x-real-ip`, else the peer address, else
`"unknown"`. -/
def getClientIdentifier (req : Req) : String :=
  if truthy req.xForwardedFor then
    jsTrim ((jsSplit (req.xForwardedFor.getD "") ',').headD "")
  else if truthy req.xRealIp then
    req.xRealIp.getD ""
  else if truthy req.remoteAddress then
    req.remoteAddress.getD ""
  else
    "unknown"

/-- Modelled from the spec: `parseBoolean` (src/common/ops.js is not under
`src/`) parses `true`/`1` to `true` and anything else — including absence —
to `false`. -/
def parseBoolean (v : Option String) : Bool :=
  match v with
  | some s => s.toLower = "true" || s = "1"
  | none => false

/-- Valid OpenAI model identifiers (src/unnamed/part_001 line 342). -/
def validModels : List String := ["gpt-4o", "gpt-4-turbo", "gpt-4", "gpt-3.5-turbo"]

/-- Options passed to `analyzeCandidate` (src/unnamed/part_001 lines 353-357). -/
structure AnalyzeOptions where
  include_all_commits : Bool
  openai_api_key : String
  model : String
deriving DecidableEq

/-- Body of a handler response: an error object, the 429 object with
`retryAfter`, or the analysis payload returned by `res.json(analysis)`. -/
inductive ResponseBody (α : Type) where
  | errorMsg (error : String)
  | rateLimited (error : String) (retryAfter : ℕ)
  | payload (analysis : α)
deriving DecidableEq

/-- A handler response: the HTTP status, how many times the
`X-RateLimit-*` header triplet was set, how many times success cache
headers (`setCacheHeaders`) and error/no-store cache headers
(`setErrorCacheHeaders`) were set, and the JSON body.  `cache.js` is not
under `src/`; its two setters are modelled as the two header-kind
counters, which is all the claims refer to. -/
structure Response (α : Type) where
  status : ℕ
  rateLimitTriplets : ℕ
  successCacheHeaders : ℕ
  errorCacheHeaders : ℕ
  body : ResponseBody α
deriving DecidableEq

/-- The handler's catch block (src/unnamed/part_001 lines 369-389):
`setErrorCacheHeaders`, then `MissingParamError → 400`,
`CustomError → 500`, anything else → 500 with a generic message. -/
def catchErrorResponse {α : Type} (e : AppError) : Response α :=
  match e with
  | .missingParam params =>
      ⟨400, 1, 0, 1, .errorMsg (missingParamMessage params)⟩
  | .custom msg _ =>
      ⟨500, 1, 0, 1, .errorMsg msg⟩
  | .unexpected _ =>
      ⟨500, 1, 0, 1, .errorMsg "An unexpected error occurred while analyzing the candidate"⟩

/-- The default handler of src/unnamed/part_001 (lines 289-390).  `env` is
`process.env.OPENAI_API_KEY`, `st`/`now` the rate-limit map and clock, and
`analyzeCandidate` an oracle for the network-performing analysis call
(aggregation + scoring); the response records every header-setting event.
Every response after the rate-limit gate carries the one `X-RateLimit-*`
triplet set at lines 310-312. -/
def handler {α : Type} (req : Req) (env : Option String) (st : RateMap) (now : ℕ)
    (analyzeCandidate : String → JobRole → AnalyzeOptions → Except AppError α) :
    Response α × RateMap :=
  let clientId := getClientIdentifier req
  let rl := checkRateLimit st clientId now 10 60000
  let rateLimit := rl.1
  let st' := rl.2
  if !rateLimit.allowed then
    (⟨429, 1, 0, 0,
      .rateLimited "Rate limit exceeded. Maximum 10 requests per minute."
        ((rateLimit.resetAt - now + 999) / 1000)⟩, st')
  else
    match validateUsername req.query.username with
    | .error e =>
        (⟨400, 1, 0, 0,
          .errorMsg (match e with
            | .custom msg _ => msg
            | _ => "Invalid username parameter")⟩, st')
    | .ok validatedUsername =>
        if !truthy env then
          (⟨500, 1, 0, 0,
            .errorMsg "OpenAI API key is not configured. Please set OPENAI_API_KEY environment variable."⟩,
           st')
        else
          let requestedModel :=
            if truthy req.query.openai_model then req.query.openai_model.getD "" else "gpt-4o"
          let model := if validModels.contains requestedModel then requestedModel else "gpt-4o"
          match parseJobRole req.query with
          | .error e => (catchErrorResponse e, st')
          | .ok jobRole =>
              match analyzeCandidate validatedUsername jobRole
                  ⟨parseBoolean req.query.include_all_commits, env.getD "", model⟩ with
              | .error e => (catchErrorResponse e, st')
              | .ok analysis => (⟨200, 1, 1, 0, .payload analysis⟩, st')

/-- Claim C1 (code behavior at the failing input): a request whose fields are
all present but whose `seniority` is outside the enumeration is answered with
HTTP 500, not 400 — `parseJobRole` throws a `CustomError`, which the catch
block's `instanceof CustomError` branch maps to 500; only `MissingParamError`
(the all-fields-present group check) is mapped to 400.  This contradicts the
claim and the repository's own API documentation (src/unnamed/part_000:
"400 Bad Request — Invalid parameter values (e.g., invalid seniority or
focus) … Input validation errors (length limits, format issues)"). -/
theorem handler_field_validation_gives_500 :
    (handler (α := Unit)
      ⟨⟨some "octocat", some "Engineer", some "JS", none, some "lead",
        some "frontend", none, none, none, none⟩, none, none, none⟩
      (some "sk-test") (fun _ => none) 0 (fun _ _ _ => Except.ok ())).1 =
    ⟨500, 1, 0, 1, .errorMsg "Invalid seniority. Must be one of: junior, mid, senior"⟩ := by
  decide

/-- Claim C4 (counterexample): the 429 path of the handler sets the
`X-RateLimit-*` triplet but neither of the two cache-header kinds, so it is
not the case that every response path sets exactly one cache-header kind. -/
theorem handler_429_sets_no_cache_headers :
    (handler (α := Unit)
      ⟨⟨some "octocat", none, none, none, none, none, none, none, none, none⟩,
        none, none, none⟩
      (some "sk-test") (fun _ => some ⟨10, 100000⟩) 50 (fun _ _ _ => Except.ok ())).1.status
        = 429 ∧
    (handler (α := Unit)
      ⟨⟨some "octocat", none, none, none, none, none, none, none, none, none⟩,
        none, none, none⟩
      (some "sk-test") (fun _ => some ⟨10, 100000⟩) 50 (fun _ _ _ => Except.ok ())).1.successCacheHeaders
        = 0 ∧
    (handler (α := Unit)
      ⟨⟨some "octocat", none, none, none, none, none, none, none, none, none⟩,
        none, none, none⟩
      (some "sk-test") (fun _ => some ⟨10, 100000⟩) 50 (fun _ _ _ => Except.ok ())).1.errorCacheHeaders
        = 0 := by
  refine ⟨?_, ?_, ?_⟩ <;> decide

theorem catchErrorResponse_headers {α : Type} (e : AppError) :
    (catchErrorResponse (α := α) e).rateLimitTriplets = 1 ∧
    (catchErrorResponse (α := α) e).successCacheHeaders = 0 ∧
    (catchErrorResponse (α := α) e).errorCacheHeaders = 1 ∧
    (catchErrorResponse (α := α) e).status ≠ 200 ∧
    (catchErrorResponse (α := α) e).status ≠ 429 := by
  cases e <;> simp [catchErrorResponse]

/-- Claim C4 (amended): every response path of the handler sets exactly one
`X-RateLimit-*` triplet and at most one cache-header kind; the 200 path sets
exactly the success cache headers, while the 429 path (and likewise the
username-validation 400 path and the missing-API-key 500 path, which share
its header shape) sets no cache headers at all. -/
theorem handler_header_discipline {α : Type} (req : Req) (env : Option String)
    (st : RateMap) (now : ℕ)
    (a : String → JobRole → AnalyzeOptions → Except AppError α) :
    (handler req env st now a).1.rateLimitTriplets = 1 ∧
    (handler req env st now a).1.successCacheHeaders +
      (handler req env st now a).1.errorCacheHeaders ≤ 1 ∧
    ((handler req env st now a).1.status = 200 →
      (handler req env st now a).1.successCacheHeaders = 1 ∧
      (handler req env st now a).1.errorCacheHeaders = 0) ∧
    ((handler req env st now a).1.status = 429 →
      (handler req env st now a).1.successCacheHeaders = 0 ∧
      (handler req env st now a).1.errorCacheHeaders = 0) := by
  unfold handler
  dsimp only
  split
  · simp
  · split
    · simp
    · split
      · simp
      · split
        · exact ⟨(catchErrorResponse_headers _).1,
            by simp [(catchErrorResponse_headers (α := α) _).2.1,
              (catchErrorResponse_headers (α := α) _).2.2.1],
            fun h => absurd h (catchErrorResponse_headers _).2.2.2.1,
            fun h => absurd h (catchErrorResponse_headers _).2.2.2.2⟩
        · split
          · exact ⟨(catchErrorResponse_headers _).1,
              by simp [(catchErrorResponse_headers (α := α) _).2.1,
                (catchErrorResponse_headers (α := α) _).2.2.1],
              fun h => absurd h (catchErrorResponse_headers _).2.2.2.1,
              fun h => absurd h (catchErrorResponse_headers _).2.2.2.2⟩
          · simp

theorem handler_header_discipline_witness :
    (handler (α := Unit)
      ⟨⟨some "octocat", none, none, none, none, none, none, none, none, none⟩,
        none, none, none⟩
      (some "sk-test") (fun _ => some ⟨10, 100000⟩) 50 (fun _ _ _ => Except.ok ())).1.status
        = 429 ∧
    (handler (α := Unit)
      ⟨⟨some "octocat", none, none, none, none, none, none, none, none, none⟩,
        none, none, none⟩
      (some "sk-test") (fun _ => some ⟨10, 100000⟩) 50 (fun _ _ _ => Except.ok ())).1.successCacheHeaders
        = 0 := by
  refine ⟨by decide, ?_⟩
  exact ((handler_header_discipline
    ⟨⟨some "octocat", none, none, none, none, none, none, none, none, none⟩,
      none, none, none⟩
    (some "sk-test") (fun _ => some ⟨10, 100000⟩) 50 (fun _ _ _ => Except.ok ())).2.2.2
    (by decide)).1

/-- Claim C5: the handler of src/unnamed/part_001 reads the OpenAI API key
exclusively from the `OPENAI_API_KEY` environment value: its whole result
(response and rate-limit state alike) is unchanged under any change —
adding, removing or rewriting — of the `openai_api_key` query parameter. -/
theorem handler_ignores_query_api_key {α : Type} (req : Req) (k₁ k₂ : Option String)
    (env : Option String) (st : RateMap) (now : ℕ)
    (a : String → JobRole → AnalyzeOptions → Except AppError α) :
    handler { req with query := { req.query with openai_api_key := k₁ } } env st now a =
    handler { req with query := { req.query with openai_api_key := k₂ } } env st now a := by
  obtain ⟨⟨_, _, _, _, _, _, _, _, _, _⟩, _, _, _⟩ := req
  rfl

/-- The key resolution of the legacy handler variant `api/analyze.js`
(lines 72-97): `openai_api_key || process.env.OPENAI_API_KEY` — unlike the
handler of src/unnamed/part_001, it does consult the query parameter. -/
def legacyApiKey (q : Query) (env : Option String) : Option String :=
  if truthy q.openai_api_key then q.openai_api_key else env

theorem legacyApiKey_reads_query :
    legacyApiKey
      ⟨none, none, none, none, none, none, none, none, none, some "sk-from-query"⟩
      (some "sk-from-env") = some "sk-from-query" := by
  decide

theorem validateUsername_long (s : String) (hlen : 39 < (jsTrim s).length) :
    validateUsername (some s) =
      .error (.custom "Username must be 39 characters or less" "MISSING_PARAMETER") := by
  have hne : s ≠ "" := by
    intro h
    subst h
    revert hlen
    decide
  unfold validateUsername
  rw [if_neg (by simp [truthy, hne])]
  simp only [Option.getD_some]
  rw [if_neg (by omega), if_pos hlen]

/-- Claim C8: whenever the rate limiter admits the request, a username whose
trimmed length exceeds 39 characters is rejected with HTTP 400 and the
"Username must be 39 characters or less" message, and the response is
independent of the analysis oracle — i.e. it is produced before any upstream
call (GitHub aggregation or scoring) could be made. -/
theorem handler_rejects_long_username {α : Type}
    (req : Req) (s : String) (env : Option String) (st : RateMap) (now : ℕ)
    (a₁ a₂ : String → JobRole → AnalyzeOptions → Except AppError α)
    (hs : req.query.username = some s)
    (hlen : 39 < (jsTrim s).length)
    (hallowed : (checkRateLimit st (getClientIdentifier req) now 10 60000).1.allowed = true) :
    (handler req env st now a₁).1.status = 400 ∧
    (handler req env st now a₁).1.body =
      .errorMsg "Username must be 39 characters or less" ∧
    (handler req env st now a₁).1 = (handler req env st now a₂).1 := by
  have hval := validateUsername_long s hlen
  rw [← hs] at hval
  unfold handler
  simp only [hallowed, Bool.not_true, Bool.false_eq_true, if_false, hval]
  exact ⟨trivial, trivial, trivial⟩

theorem handler_rejects_long_username_witness :
    39 < (jsTrim "aaaaaaaaaaaaaaaaaaaaaaaaaaaaaaaaaaaaaaaa").length ∧
    (handler (α := Unit)
      ⟨⟨some "aaaaaaaaaaaaaaaaaaaaaaaaaaaaaaaaaaaaaaaa", none, none, none, none,
        none, none, none, none, none⟩, none, none, none⟩
      none (fun _ => none) 0 (fun _ _ _ => Except.ok ())).1.status = 400 :=
  ⟨by decide,
   (handler_rejects_long_username
      ⟨⟨some "aaaaaaaaaaaaaaaaaaaaaaaaaaaaaaaaaaaaaaaa", none, none, none, none,
        none, none, none, none, none⟩, none, none, none⟩
      "aaaaaaaaaaaaaaaaaaaaaaaaaaaaaaaaaaaaaaaa" none (fun _ => none) 0
      (fun _ _ _ => Except.ok ()) (fun _ _ _ => Except.error (.unexpected "x"))
      rfl (by decide) (by decide)).1⟩

/- ### Data aggregator (src/unnamed/part_006) -/

/-- `calculateCommitFrequency` (src/unnamed/part_006 lines 16-28). -/
def calculateCommitFrequency (totalCommits accountAgeYears : ℚ) : String :=
  if accountAgeYears = 0 then
    "low"
  else
    let commitsPerYear := totalCommits / accountAgeYears
    if commitsPerYear < 50 then "low"
    else if commitsPerYear < 200 then "medium"
    else "high"

/-- `calculateCommitConsistency` (src/unnamed/part_006 lines 38-51). -/
def calculateCommitConsistency (totalCommits accountAgeYears : ℚ) : String :=
  if accountAgeYears = 0 then
    "sporadic"
  else
    let commitsPerYear := totalCommits / accountAgeYears
    let commitsPerMonth := commitsPerYear / 12
    if commitsPerMonth < 2 then "sporadic"
    else if commitsPerMonth < 10 then "consistent"
    else "very_consistent"

/-- The branch of `calculateCommitFrequency` taken whenever
`accountAgeYears ≠ 0`. -/
def commitFrequencyNoGuard (totalCommits accountAgeYears : ℚ) : String :=
  let commitsPerYear := totalCommits / accountAgeYears
  if commitsPerYear < 50 then "low"
  else if commitsPerYear < 200 then "medium"
  else "high"

/-- The branch of `calculateCommitConsistency` taken whenever
`accountAgeYears ≠ 0`. -/
def commitConsistencyNoGuard (totalCommits accountAgeYears : ℚ) : String :=
  let commitsPerYear := totalCommits / accountAgeYears
  let commitsPerMonth := commitsPerYear / 12
  if commitsPerMonth < 2 then "sporadic"
  else if commitsPerMonth < 10 then "consistent"
  else "very_consistent"

/-- A repository record as described by the `TopRepository` typedef
(src/unnamed/part_007); `description` is `none` when null. -/
structure Repo where
  name : String
  stars : ℚ
  forks : ℚ
  is_original_work : Bool
  description : Option String
deriving DecidableEq

/-- `assessReadmeQuality` (src/unnamed/part_006 lines 60-75). -/
def assessReadmeQuality (repositories : List Repo) : String :=
  if repositories.length = 0 then
    "poor"
  else
    let reposWithDescriptions := (repositories.filter (fun repo =>
      match repo.description with
      | some d => decide (20 < d.length)
      | none => false)).length
    let ratio : ℚ := (reposWithDescriptions : ℚ) / (repositories.length : ℚ)
    if ratio < 3 / 10 then "poor"
    else if ratio < 7 / 10 then "average"
    else "strong"

/-- `assessDocumentationSignal` (src/unnamed/part_006 lines 83-98). -/
def assessDocumentationSignal (repositories : List Repo) : String :=
  if repositories.length = 0 then
    "low"
  else
    let reposWithDescriptions := (repositories.filter (fun repo =>
      match repo.description with
      | some d => decide (30 < d.length)
      | none => false)).length
    let ratio : ℚ := (reposWithDescriptions : ℚ) / (repositories.length : ℚ)
    if ratio < 4 / 10 then "low"
    else if ratio < 7 / 10 then "medium"
    else "high"

/-- The collaboration-signals record (src/unnamed/part_007). -/
structure CollaborationSignals where
  solo_projects_ratio : ℚ
  team_projects_ratio : ℚ
deriving DecidableEq

/-- `calculateCollaborationSignals` (src/unnamed/part_006 lines 107-121). -/
def calculateCollaborationSignals (repositories : List Repo) (contributedTo : ℚ) :
    CollaborationSignals :=
  let totalRepos := repositories.length
  if totalRepos = 0 then
    ⟨1, 0⟩
  else
    let teamProjectsRatio := min (contributedTo / ((totalRepos : ℚ) + contributedTo)) 1
    ⟨1 - teamProjectsRatio, teamProjectsRatio⟩

/-- The statistics record returned by the `fetchStats` collaborator
(spec §6: `fetchStatistics(username, flags)`). -/
structure StatsData where
  totalCommits : ℚ
  totalPRs : ℚ
  totalPRsMerged : ℚ
  totalReviews : ℚ
  totalIssues : ℚ
  contributedTo : ℚ
deriving DecidableEq

/-- One entry of the language-size mapping returned by `fetchTopLanguages`. -/
structure LangData where
  name : String
  size : ℚ
deriving DecidableEq

/-- Profile data returned by `fetchUserProfile` (src/unnamed/part_006
lines 129-179). -/
structure ProfileData where
  public_repos : ℚ
  followers : ℚ
  account_age_years : ℚ
deriving DecidableEq

/-- Outcome of the profile GraphQL query consumed by `fetchUserProfile`:
either `res.data.errors` is set, or the query succeeded with the user's
repository count, follower count and `createdAt` timestamp (ms). -/
inductive ProfileFetchResult where
  | errors
  | ok (repoCount followerCount createdAt : ℚ)

/-- `1000 * 60 * 60 * 24 * 365`, the divisor used for the account age. -/
def msPerYear : ℚ := 1000 * 60 * 60 * 24 * 365

/-- `fetchUserProfile` (src/unnamed/part_006 lines 129-179) after the
network call: on error the defaults `{0, 0, 1}`; on success
`Math.max(1, Math.floor((now - createdAt) / msPerYear))`. -/
def fetchUserProfile (res : ProfileFetchResult) (now : ℚ) : ProfileData :=
  match res with
  | .errors => ⟨0, 0, 1⟩
  | .ok repoCount followerCount createdAt =>
      ⟨repoCount, followerCount, ((max 1 ⌊(now - createdAt) / msPerYear⌋ : ℤ) : ℚ)⟩

/-- A `language, percentage` pair of `primary_languages`. -/
structure PrimaryLanguage where
  language : String
  percentage : ℚ
deriving DecidableEq

/-- Pull-request statistics of the aggregated payload. -/
structure PullRequestStats where
  opened : ℚ
  merged : ℚ
  reviewed : ℚ
deriving DecidableEq

/-- Issue statistics of the aggregated payload. -/
structure IssueStats where
  opened : ℚ
  closed : ℚ
deriving DecidableEq

/-- The `github_stats` part of the aggregated payload (src/unnamed/part_007). -/
structure GitHubStats where
  total_commits_estimate : ℚ
  commit_frequency : String
  commit_consistency : String
  primary_languages : List PrimaryLanguage
  top_repositories : List Repo
  pull_requests : PullRequestStats
  issues : IssueStats
  collaboration_signals : CollaborationSignals
  readme_quality : String
  documentation_signal : String
deriving DecidableEq

/-- The `candidate` part of the aggregated payload. -/
structure CandidateProfile where
  username : String
  profile : ProfileData
deriving DecidableEq

/-- The aggregated payload (`AnalyzerInput`, src/unnamed/part_007);
`job_role` is `none` until the caller fills it in. -/
structure AnalyzerInput where
  candidate : CandidateProfile
  github_stats : GitHubStats
  job_role : Option JobRole
deriving DecidableEq

/-- The pure combination step of `aggregateGitHubData`
(src/unnamed/part_006 lines 189-282), taking the three concurrently
fetched upstream results as inputs.  `topRepositories` is the placeholder
empty list of line 225. -/
def aggregateGitHubData (username : String) (stats : StatsData)
    (topLangs : List LangData) (profile : ProfileData) : AnalyzerInput :=
  let accountAgeYears := profile.account_age_years
  let totalLangSize := (topLangs.map (fun lang => lang.size)).sum
  let primaryLanguages :=
    (((topLangs.map (fun lang =>
        (⟨lang.name, if 0 < totalLangSize then lang.size / totalLangSize * 100 else 0⟩ :
          PrimaryLanguage)))).mergeSort
      (fun a b => decide (b.percentage ≤ a.percentage))).take 5
  let topRepositories : List Repo := []
  let commitFrequency := calculateCommitFrequency stats.totalCommits accountAgeYears
  let commitConsistency := calculateCommitConsistency stats.totalCommits accountAgeYears
  let collaborationSignals := calculateCollaborationSignals topRepositories stats.contributedTo
  let readmeQuality := assessReadmeQuality topRepositories
  let documentationSignal := assessDocumentationSignal topRepositories
  { candidate := ⟨username, ⟨profile.public_repos, profile.followers, accountAgeYears⟩⟩,
    github_stats :=
      { total_commits_estimate := stats.totalCommits,
        commit_frequency := commitFrequency,
        commit_consistency := commitConsistency,
        primary_languages := primaryLanguages,
        top_repositories := topRepositories,
        pull_requests := ⟨stats.totalPRs, stats.totalPRsMerged, stats.totalReviews⟩,
        issues := ⟨0, stats.totalIssues⟩,
        collaboration_signals := collaborationSignals,
        readme_quality := readmeQuality,
        documentation_signal := documentationSignal },
    job_role := none }

/-- Claim C6: the aggregation path hands the documentation heuristics the
always-empty placeholder `topRepositories` list, so every aggregated payload
has `readme_quality = "poor"`, `documentation_signal = "low"` and
`team_projects_ratio = 0`, whatever the fetched GitHub data was. -/
theorem aggregateGitHubData_placeholder_heuristics (username : String)
    (stats : StatsData) (topLangs : List LangData) (profile : ProfileData) :
    (aggregateGitHubData username stats topLangs profile).github_stats.top_repositories
      = [] ∧
    (aggregateGitHubData username stats topLangs profile).github_stats.readme_quality
      = "poor" ∧
    (aggregateGitHubData username stats topLangs profile).github_stats.documentation_signal
      = "low" ∧
    (aggregateGitHubData username stats topLangs
      profile).github_stats.collaboration_signals.team_projects_ratio = 0 :=
  ⟨rfl, rfl, rfl, rfl⟩

/-- Claim C9: the commit classifiers use strict `<` thresholds — frequency
"low"/"medium"/"high" at commits-per-year cut points 50 and 200, consistency
"sporadic"/"consistent"/"very_consistent" at commits-per-month cut points 2
and 10 — and at `totalCommits = 240`, `accountAgeYears = 2` they classify
"medium" (120 per year) and "very_consistent" (exactly 10 per month, not
`< 10`). -/
theorem commit_classifier_thresholds (c a : ℚ) (ha : a ≠ 0) :
    (calculateCommitFrequency c a = "low" ↔ c / a < 50) ∧
    (calculateCommitFrequency c a = "medium" ↔ 50 ≤ c / a ∧ c / a < 200) ∧
    (calculateCommitFrequency c a = "high" ↔ 200 ≤ c / a) ∧
    (calculateCommitConsistency c a = "sporadic" ↔ c / a / 12 < 2) ∧
    (calculateCommitConsistency c a = "consistent" ↔ 2 ≤ c / a / 12 ∧ c / a / 12 < 10) ∧
    (calculateCommitConsistency c a = "very_consistent" ↔ 10 ≤ c / a / 12) ∧
    calculateCommitFrequency 240 2 = "medium" ∧
    calculateCommitConsistency 240 2 = "very_consistent" := by
  unfold calculateCommitFrequency calculateCommitConsistency
  rw [if_neg ha, if_neg ha]
  refine ⟨?_, ?_, ?_, ?_, ?_, ?_, ?_, ?_⟩
  · by_cases h1 : c / a < 50 <;> by_cases h2 : c / a < 200 <;>
      simp [h1, h2] <;>
      first
        | assumption
        | linarith
        | (constructor <;> linarith)
        | (intro h3; linarith)
        | (intro h3 h4; linarith)
        | (rintro ⟨h3, h4⟩; linarith)
  · by_cases h1 : c / a < 50 <;> by_cases h2 : c / a < 200 <;>
      simp [h1, h2] <;>
      first
        | assumption
        | linarith
        | (constructor <;> linarith)
        | (intro h3; linarith)
        | (intro h3 h4; linarith)
        | (rintro ⟨h3, h4⟩; linarith)
  · by_cases h1 : c / a < 50 <;> by_cases h2 : c / a < 200 <;>
      simp [h1, h2] <;>
      first
        | assumption
        | linarith
        | (constructor <;> linarith)
        | (intro h3; linarith)
        | (intro h3 h4; linarith)
        | (rintro ⟨h3, h4⟩; linarith)
  · by_cases h1 : c / a / 12 < 2 <;> by_cases h2 : c / a / 12 < 10 <;>
      simp [h1, h2] <;>
      first
        | assumption
        | linarith
        | (constructor <;> linarith)
        | (intro h3; linarith)
        | (intro h3 h4; linarith)
        | (rintro ⟨h3, h4⟩; linarith)
  · by_cases h1 : c / a / 12 < 2 <;> by_cases h2 : c / a / 12 < 10 <;>
      simp [h1, h2] <;>
      first
        | assumption
        | linarith
        | (constructor <;> linarith)
        | (intro h3; linarith)
        | (intro h3 h4; linarith)
        | (rintro ⟨h3, h4⟩; linarith)
  · by_cases h1 : c / a / 12 < 2 <;> by_cases h2 : c / a / 12 < 10 <;>
      simp [h1, h2] <;>
      first
        | assumption
        | linarith
        | (constructor <;> linarith)
        | (intro h3; linarith)
        | (intro h3 h4; linarith)
        | (rintro ⟨h3, h4⟩; linarith)
  · norm_num
  · norm_num

theorem commit_classifier_thresholds_witness :
    (2 : ℚ) ≠ 0 ∧
    calculateCommitFrequency 240 2 = "medium" ∧
    calculateCommitConsistency 240 2 = "very_consistent" :=
  ⟨by norm_num,
   (commit_classifier_thresholds 240 2 (by norm_num)).2.2.2.2.2.2.1,
   (commit_classifier_thresholds 240 2 (by norm_num)).2.2.2.2.2.2.2⟩

/-- Claim C10: `fetchUserProfile` always reports `account_age_years ≥ 1` —
the error fallback returns 1 and the success path takes
`max(1, floor((now - createdAt) / msPerYear))` — so in the aggregation path
the `accountAgeYears = 0` guard branches of the commit classifiers are
unreachable: the aggregated `commit_frequency` and `commit_consistency`
always equal the guard-free, division-based classification. -/
theorem fetchUserProfile_account_age_positive (res : ProfileFetchResult) (now : ℚ) :
    1 ≤ (fetchUserProfile res now).account_age_years ∧
    (fetchUserProfile res now).account_age_years ≠ 0 ∧
    (∀ (u : String) (stats : StatsData) (topLangs : List LangData),
      (aggregateGitHubData u stats topLangs
          (fetchUserProfile res now)).github_stats.commit_frequency =
        commitFrequencyNoGuard stats.totalCommits
          (fetchUserProfile res now).account_age_years ∧
      (aggregateGitHubData u stats topLangs
          (fetchUserProfile res now)).github_stats.commit_consistency =
        commitConsistencyNoGuard stats.totalCommits
          (fetchUserProfile res now).account_age_years) := by
  have hage : 1 ≤ (fetchUserProfile res now).account_age_years := by
    cases res with
    | errors => norm_num [fetchUserProfile]
    | ok repoCount followerCount createdAt =>
        show (1 : ℚ) ≤ ((max 1 ⌊(now - createdAt) / msPerYear⌋ : ℤ) : ℚ)
        exact_mod_cast le_max_left 1 ⌊(now - createdAt) / msPerYear⌋
  have hne : (fetchUserProfile res now).account_age_years ≠ 0 := by
    intro h
    rw [h] at hage
    norm_num at hage
  refine ⟨hage, hne, fun u stats topLangs => ⟨?_, ?_⟩⟩
  · show calculateCommitFrequency stats.totalCommits
      (fetchUserProfile res now).account_age_years = _
    unfold calculateCommitFrequency commitFrequencyNoGuard
    rw [if_neg hne]
  · show calculateCommitConsistency stats.totalCommits
      (fetchUserProfile res now).account_age_years = _
    unfold calculateCommitConsistency commitConsistencyNoGuard
    rw [if_neg hne]

/- ### Scoring client (`analyzeWithOpenAI`, embedded after
src/src/analyzer/README.md) -/

/-- A JavaScript value as it can appear at
`analysis.hiring_recommendation.confidence_percentage` after `JSON.parse`,
plus the results of arithmetic on it: a number (`num none` is `NaN`), a
string, a boolean, or `null`. -/
inductive JsVal where
  | num (x : Option ℚ)
  | str (s : String)
  | bool (b : Bool)
  | null
deriving DecidableEq

/-- JavaScript falsiness: `0`, `NaN`, `""`, `false` and `null` are falsy. -/
def jsFalsy : JsVal → Bool
  | .num (some x) => x = 0
  | .num none => true
  | .str s => s = ""
  | .bool b => !b
  | .null => true

/-- `a || b` on JavaScript values. -/
def jsOr (v fallback : JsVal) : JsVal :=
  if jsFalsy v then fallback else v

/-- Numeric value of a digit list (most significant first). -/
def digitsVal (cs : List Char) : ℕ :=
  cs.foldl (fun acc c => 10 * acc + (c.toNat - 48)) 0

/-- JavaScript `ToNumber` on a string, for plain decimal literals: trimmed
empty string is 0; an optional sign, integer digits and an optional
fraction parse to their value; anything else (including words such as
`"high"`, which contain no digits) is `NaN` (`none`).  Exponent, hex and
`Infinity` forms are not modelled — no claim mentions them. -/
def jsStringToNumber (s : String) : Option ℚ :=
  let t := (jsTrim s).data
  if t = [] then
    some 0
  else
    let signed : ℚ × List Char :=
      match t with
      | '-' :: r => (-1, r)
      | '+' :: r => (1, r)
      | r => (1, r)
    let intPart := signed.2.takeWhile Char.isDigit
    let rest := signed.2.dropWhile Char.isDigit
    match rest with
    | [] => if intPart = [] then none else some (signed.1 * digitsVal intPart)
    | '.' :: frac =>
        if frac.all Char.isDigit && !(intPart = [] && frac = []) then
          some (signed.1 * ((digitsVal intPart : ℚ) + (digitsVal frac : ℚ) / (10 ^ frac.length)))
        else
          none
    | _ => none

/-- JavaScript `ToNumber` (`none` = `NaN`). -/
def jsToNumber : JsVal → Option ℚ
  | .num x => x
  | .str s => jsStringToNumber s
  | .bool b => some (if b then 1 else 0)
  | .null => some 0

/-- `Math.min` on two JavaScript numbers: `NaN` absorbs. -/
def jsMin (a b : Option ℚ) : Option ℚ :=
  match a, b with
  | some x, some y => some (min x y)
  | _, _ => none

/-- `Math.max` on two JavaScript numbers: `NaN` absorbs. -/
def jsMax (a b : Option ℚ) : Option ℚ :=
  match a, b with
  | some x, some y => some (max x y)
  | _, _ => none

/-- The condition of the `confidence_percentage` fix-up in
`analyzeWithOpenAI`: present and (`typeof ≠ "number"` or `< 0` or `> 100`).
`typeof NaN` is `"number"` and its comparisons are false, so `NaN` would
not trigger it (it cannot come out of `JSON.parse` anyway). -/
def confidenceInvalid : JsVal → Bool
  | .num (some x) => x < 0 || 100 < x
  | .num none => false
  | _ => true

/-- The parsed scoring-engine response, as far as the validation code
inspects it: truthiness of the four required sections and the
`confidence_percentage` value (`none` = absent). -/
structure ParsedAnalysis where
  engineer_summary : Bool
  job_fit_analysis : Bool
  hiring_recommendation : Bool
  recommendations : Bool
  confidence_percentage : Option JsVal
deriving DecidableEq

/-- The post-parse validation of `analyzeWithOpenAI` (embedded after
src/src/analyzer/README.md, lines 356-388): reject when a required section
is missing, else if `confidence_percentage` is present and invalid replace
it by `Math.max(0, Math.min(100, confidence_percentage || 50))`. -/
def validateAnalysis (analysis : ParsedAnalysis) : Except AppError ParsedAnalysis :=
  if !(analysis.engineer_summary && analysis.job_fit_analysis &&
       analysis.hiring_recommendation && analysis.recommendations) then
    .error (.custom "Invalid analysis response structure from OpenAI" "API_ERROR")
  else
    match analysis.confidence_percentage with
    | none => .ok analysis
    | some v =>
        if confidenceInvalid v then
          let clamped := jsMax (some 0) (jsMin (some 100) (jsToNumber (jsOr v (.num (some 50)))))
          .ok { analysis with confidence_percentage := some (.num clamped) }
        else
          .ok analysis

/-- Claim C7: the out-of-range number 150 is indeed accepted and clamped to
100, but a present non-numeric `confidence_percentage` is not always
surfaced inside [0,100]: the truthy string `"high"` passes through
`"high" || 50` unreplaced and `Math.min`/`Math.max` turn it into `NaN`
(`num none`), which is no rational in [0,100].  The code's own comment and
log line ("Clamp to valid range", "ensuring it's between 0-100") say the
intent is the claim's behavior, so this is a slip in the code. -/
theorem confidence_clamp_behavior :
    validateAnalysis ⟨true, true, true, true, some (.num (some 150))⟩ =
      .ok ⟨true, true, true, true, some (.num (some 100))⟩ ∧
    validateAnalysis ⟨true, true, true, true, some (.str "high")⟩ =
      .ok ⟨true, true, true, true, some (.num none)⟩ ∧
    ∀ q : ℚ, (JsVal.num none) ≠ .num (some q) := by
  refine ⟨?_, ?_, fun q h => by cases h⟩
  · have h1 : confidenceInvalid (.num (some 150)) = true := by
      norm_num [confidenceInvalid]
    have h2 : jsFalsy (.num (some 150)) = false := by
      norm_num [jsFalsy]
    simp only [validateAnalysis, Bool.and_self, Bool.not_true, Bool.false_eq_true,
      if_false, h1, if_true, jsOr, h2, jsToNumber, jsMin, jsMax]
    norm_num
  · rfl
